import Mathlib

/-!
Verification of the TuneWave client playback orchestration core
(src/tunewave-frontend/src/context/MusicContext.jsx, with the
YouTubeIframePlayer and VideoViewer components and utils/urlUtils.js).

Embedding conventions, fixed once for the whole file:

* React state is modelled by the record `MusicState`.  The two player refs
  (nativePlayerRef, youtubePlayerObjectRef) are modelled by the Boolean
  fields `nativePlayerAttached` / `youtubePlayerAttached`, and the native
  element read-outs by `nativePlayerTime` / `nativeReadyState`.

* A React event handler runs with a SNAPSHOT of the state: every direct
  read of a state variable inside the callbacks (`isPlaying`,
  `currentTrackIndex`, ...) sees the value of the render that created the
  callback, while the `setX` calls accumulate into a pending state that is
  applied when the handler returns; functional updates
  (`setX(prev => ...)`) read the pending value.  Handlers that call other
  handlers are therefore modelled as functions of a pair
  (snap : MusicState) (acc : MusicState): reads use `snap`, writes update
  `acc`.  A top level event starts with `acc = snap`.

* Calls into the underlying players (seekTo, play, pause, volume writes,
  console output, and the deferred `playTrackRef.current(t)` call) are
  modelled as an emitted list of `PlayerAction`s.

* JavaScript string-or-undefined values are `Option String`; the empty
  string is falsy, matching `||` and the truthiness tests in the source.

* Numbers (times, durations, volume) are `ℚ`; indices are `Int` because
  the code uses -1 as a sentinel.
-/

/-- String literal "off" (REPEAT_MODES.OFF in MusicContext.jsx). -/
def REPEAT_OFF : String := "off"

/-- String literal "context" (REPEAT_MODES.CONTEXT); the spec calls this mode "queue". -/
def REPEAT_CONTEXT : String := "context"

/-- String literal "track" (REPEAT_MODES.TRACK). -/
def REPEAT_TRACK : String := "track"

/-- String literal "youtube" (sourceType value). -/
def ST_YOUTUBE : String := "youtube"

/-- String literal "local" (sourceType value). -/
def ST_LOCAL : String := "local"

/-- String literal "external_url" (sourceType value). -/
def ST_EXTERNAL_URL : String := "external_url"

/-- Truthiness of a JS string-or-undefined value: present and non-empty. -/
def jsTruthy (o : Option String) : Bool :=
  match o with
  | none => false
  | some s => !s.isEmpty

/-- JS `a || b` on string-or-undefined values. -/
def jsOrStr (a b : Option String) : Option String :=
  if jsTruthy a then a else b

/-- Literal from utils/urlUtils.js. -/
def API_BASE_URL : String := "http://localhost:5000"

/-- Characters of the literal "http". -/
def HTTP_LIST : List Char := "http".toList

/-- Model of getFullImageUrl from src/tunewave-frontend/src/utils/urlUtils.js:
returns the empty string for a falsy path, the path itself when it already
starts with "http", else API base and path joined with a single slash
(the base stripped of a trailing slash, the path of a leading one).
Computed over character lists so that it evaluates by kernel reduction. -/
def getFullImageUrl (relativePath : String) : String :=
  let rp := relativePath.toList
  if rp.isEmpty then ""
  else if HTTP_LIST.isPrefixOf rp then relativePath
  else
    let baseL := API_BASE_URL.toList
    let cleanBase := if ['/'].isSuffixOf baseL then baseL.dropLast else baseL
    let cleanPath := match rp with
      | c :: restP => if c = '/' then restP else rp
      | [] => rp
    String.mk (cleanBase ++ '/' :: cleanPath)

/-- A track record as consumed by MusicContext.jsx (fields the playback
core reads; absent JS fields are `none`).  The `_id` field of the source
is written `mid` because Lean reserves leading-underscore names. -/
structure Track where
  mid : Option String
  id : Option String
  sourceType : Option String
  sourceUrl : Option String
  filePath : Option String
  cover_photo : Option String
deriving DecidableEq

/-- The currentTrack object built by loadAndPlayTrack: the track data
spread together with the computed audioSrc and cover_photo_url. -/
structure CurrentTrack where
  track : Track
  audioSrc : String
  cover_photo_url : Option String
deriving DecidableEq

/-- The unified playback state of the MusicProvider (React state plus the
player refs, see the header comment). -/
structure MusicState where
  currentTrack : Option CurrentTrack
  isPlaying : Bool
  currentTime : ℚ
  duration : ℚ
  sourceType : Option String
  volume : ℚ
  isMuted : Bool
  playlist : List Track
  currentTrackIndex : Int
  isShuffling : Bool
  repeatMode : String
  isVideoViewerOpen : Bool
  nativePlayerAttached : Bool
  nativePlayerTime : ℚ
  nativeReadyState : Nat
  youtubePlayerAttached : Bool
deriving DecidableEq

/-- Commands issued to the underlying players and other observable
side effects of a handler. -/
inductive PlayerAction where
  | seekTo (t : ℚ)
  | loadTrack (t : Option Track)
  | consoleError
  | consoleWarn
  | setVolumeAct (v : ℚ)
  | setMutedAct (m : Bool)
  | play
  | pause
deriving DecidableEq

/-- JS `l[i]` for an Int index: `none` (undefined) when out of range. -/
def listGetInt {α : Type} (l : List α) (i : Int) : Option α :=
  if 0 ≤ i then l[i.toNat]? else none

/-- The do-while loop in getNextIndex: draw `rand idx`, redraw while the
draw equals the current index and the playlist has more than one element.
`rand` is the stream of values of Math.floor(Math.random()*length); `fuel`
bounds the number of draws (`none` models non-termination within fuel). -/
def shuffleDraw (rand : Nat → Nat) (len : Nat) (cur : Int) : Nat → Nat → Option Nat
  | 0, _ => none
  | fuel + 1, idx =>
    let v := rand idx
    if (v : Int) = cur ∧ 1 < len then shuffleDraw rand len cur fuel (idx + 1) else some v

/-- Model of getNextIndex (MusicContext.jsx lines 97-114).  Reads the
closure state `s`; the shuffle branch consumes the random stream. -/
def getNextIndex (s : MusicState) (rand : Nat → Nat) (fuel : Nat) : Option Int :=
  if s.playlist.length = 0 then some (-1)
  else if s.repeatMode = REPEAT_TRACK then some s.currentTrackIndex
  else if s.isShuffling then
    (shuffleDraw rand s.playlist.length s.currentTrackIndex fuel 0).map (fun n => (n : Int))
  else
    let nextIndex := s.currentTrackIndex + 1
    if (s.playlist.length : Int) ≤ nextIndex then
      some (if s.repeatMode = REPEAT_CONTEXT then 0 else -1)
    else some nextIndex

/-- Model of handleSeek (lines 119-135), in snapshot-accumulator form.
The player ref consulted depends on the snapshot sourceType; with no
attached player the code only warns.  The stale-closure read of
`isPlaying` uses the snapshot, exactly as the React callback does. -/
def handleSeekFrom (snap acc : MusicState) (time : ℚ) : MusicState × List PlayerAction :=
  let attached := if snap.sourceType = some ST_YOUTUBE then snap.youtubePlayerAttached
                  else snap.nativePlayerAttached
  if attached then
    let acc := { acc with currentTime := time }
    let acc := if !snap.isPlaying then { acc with isPlaying := true } else acc
    (acc, [PlayerAction.seekTo time])
  else (acc, [PlayerAction.consoleWarn])

/-- Model of handleSeek invoked as a top level event. -/
def handleSeek (time : ℚ) (s : MusicState) : MusicState × List PlayerAction :=
  handleSeekFrom s s time

/-- Model of playNextStable (lines 140-155) in snapshot-accumulator form.
The call playTrackRef.current(nextTrack) is emitted as an
`PlayerAction.loadTrack`; the branch guard `if (nextTrack)` drops an undefined
lookup. -/
def playNextStableFrom (snap acc : MusicState) (rand : Nat → Nat) (fuel : Nat) :
    Option (MusicState × List PlayerAction) :=
  (getNextIndex snap rand fuel).map fun nextIndex =>
    if nextIndex ≠ -1 ∧ nextIndex ≠ snap.currentTrackIndex then
      match listGetInt snap.playlist nextIndex with
      | some nextTrack => (acc, [PlayerAction.loadTrack (some nextTrack)])
      | none => (acc, [])
    else if nextIndex = snap.currentTrackIndex ∧ snap.repeatMode = REPEAT_TRACK then
      handleSeekFrom snap acc 0
    else if nextIndex = -1 ∧ snap.repeatMode = REPEAT_OFF then
      ({ acc with isPlaying := false, currentTrackIndex := -1, currentTime := 0 }, [])
    else (acc, [])

/-- Model of playNextStable invoked as a top level event (the onEnded prop
of the YouTube players calls it directly). -/
def playNextStable (s : MusicState) (rand : Nat → Nat) (fuel : Nat) :
    Option (MusicState × List PlayerAction) :=
  playNextStableFrom s s rand fuel

/-- Model of handleAudioEnded (lines 174-178): sets isPlaying false and
currentTime 0, then runs playNextStable with the same snapshot. -/
def handleAudioEnded (s : MusicState) (rand : Nat → Nat) (fuel : Nat) :
    Option (MusicState × List PlayerAction) :=
  playNextStableFrom s { s with isPlaying := false, currentTime := 0 } rand fuel

/-- Model of playPreviousStable (lines 157-169).  The call
playTrackRef.current(previousTrack) is emitted as an PlayerAction carrying the
(possibly undefined) list lookup, which the source does not guard. -/
def playPreviousStable (s : MusicState) : MusicState × List PlayerAction :=
  if s.playlist.length = 0 ∨ s.currentTrackIndex = -1 then (s, [])
  else
    let p0 := s.currentTrackIndex - 1
    let prevIndex :=
      if p0 < 0 then (if s.repeatMode ≠ REPEAT_OFF then (s.playlist.length : Int) - 1 else 0)
      else p0
    if prevIndex ≠ s.currentTrackIndex then
      (s, [PlayerAction.loadTrack (listGetInt s.playlist prevIndex)])
    else (s, [])

/-- Model of handleNativeProgress (lines 193-199): applies the time read
from the currently attached native element, only while playing with a
native sourceType. -/
def handleNativeProgress (s : MusicState) : MusicState :=
  if s.isPlaying = true ∧ (s.sourceType = some ST_LOCAL ∨ s.sourceType = some ST_EXTERNAL_URL) then
    if s.nativePlayerAttached then { s with currentTime := s.nativePlayerTime } else s
  else s

/-- Model of setYoutubeCurrentTime (lines 202-204). -/
def setYoutubeCurrentTime (time : ℚ) (s : MusicState) : MusicState :=
  if s.sourceType = some ST_YOUTUBE then { s with currentTime := time } else s

/-- Model of setYoutubeDuration (lines 206-208). -/
def setYoutubeDuration (d : ℚ) (s : MusicState) : MusicState :=
  if s.sourceType = some ST_YOUTUBE then { s with duration := d } else s

/-- Model of setAudioVolume (lines 67-72). -/
def setAudioVolume (newVolume : ℚ) (s : MusicState) : MusicState :=
  let s := { s with volume := newVolume }
  if 0 < newVolume then { s with isMuted := false } else s

/-- Model of toggleVideoViewer (lines 76-88): flips the viewer flag and,
when closing with an attached YouTube player object, seeks it to the
closure currentTime. -/
def toggleVideoViewer (s : MusicState) : MusicState × List PlayerAction :=
  let newState := !s.isVideoViewerOpen
  let acts := if !newState ∧ s.youtubePlayerAttached then [PlayerAction.seekTo s.currentTime] else []
  ({ s with isVideoViewerOpen := newState }, acts)

/-- Model of the native audio control effect (lines 377-393): with a
native source and an attached element it pushes volume and mute and then
plays (when allowed by readyState or progress) or pauses. -/
def nativeAudioEffect (s : MusicState) : List PlayerAction :=
  if (s.sourceType = some ST_LOCAL ∨ s.sourceType = some ST_EXTERNAL_URL)
      ∧ s.nativePlayerAttached then
    [PlayerAction.setVolumeAct s.volume, PlayerAction.setMutedAct s.isMuted] ++
      (if s.isPlaying then
        (if 3 ≤ s.nativeReadyState ∨ 0 < s.nativePlayerTime then [PlayerAction.play] else [])
      else [PlayerAction.pause])
  else []

/-- The newSourceType computation of loadAndPlayTrack (line 219):
`trackData.sourceType || (trackData.sourceUrl ? youtube : local)`. -/
def newSourceTypeOf (t : Track) : String :=
  match t.sourceType with
  | some s => if s.isEmpty then (if jsTruthy t.sourceUrl then ST_YOUTUBE else ST_LOCAL) else s
  | none => if jsTruthy t.sourceUrl then ST_YOUTUBE else ST_LOCAL

/-- The trackUrl computation of loadAndPlayTrack (lines 218-227); `none`
is the unresolvable case in which the source refuses to start playback
(all produced strings are non-empty, so JS falsiness coincides with
`none`). -/
def resolveTrackUrl (t : Track) : Option String :=
  let st := newSourceTypeOf t
  if st = ST_YOUTUBE ∧ jsTruthy t.sourceUrl then t.sourceUrl
  else if st = ST_EXTERNAL_URL ∧ jsTruthy t.sourceUrl then t.sourceUrl
  else if st = ST_LOCAL ∧ jsTruthy t.filePath then t.filePath.map getFullImageUrl
  else none

/-- JS `x || null` on an Option String (empty string collapses to none),
used for the previous cover fallback. -/
def jsOrNull (o : Option String) : Option String :=
  if jsTruthy o then o else none

/-- Model of loadAndPlayTrack (lines 215-256).  `acc` is the pending
state (the functional update setCurrentTrack(prev => ...) reads it);
the handler reads no closure state (its dependency list is empty). -/
def loadAndPlayTrack (acc : MusicState) (trackData : Option Track) (index : Int) :
    MusicState × List PlayerAction :=
  match trackData with
  | none => (acc, [])
  | some td =>
    let newST := newSourceTypeOf td
    match resolveTrackUrl td with
    | none => ({ acc with currentTrack := none, isPlaying := false }, [PlayerAction.consoleError])
    | some trackUrl =>
      let prevCover : Option String := jsOrNull (acc.currentTrack.bind (fun ct => ct.cover_photo_url))
      let newCT : CurrentTrack :=
        { track := td
          audioSrc := trackUrl
          cover_photo_url :=
            if jsTruthy td.cover_photo then td.cover_photo.map getFullImageUrl else prevCover }
      let acc := { acc with
        isPlaying := false
        currentTrack := some newCT
        sourceType := some newST
        isVideoViewerOpen := (newST = ST_YOUTUBE)
        currentTime := 0
        duration := 0 }
      let acc := if index ≠ -1 then { acc with currentTrackIndex := index } else acc
      ({ acc with isPlaying := true }, [])

/-- Model of playNewQueue (lines 266-283). -/
def playNewQueue (s : MusicState) (tracks : List Track) (startIndex : Nat) :
    MusicState × List PlayerAction :=
  if tracks.length = 0 then
    ({ s with playlist := [], currentTrackIndex := -1, currentTrack := none, isPlaying := false }, [])
  else
    let acc := { s with playlist := tracks }
    match tracks[startIndex]? with
    | some t => loadAndPlayTrack acc (some t) (startIndex : Int)
    | none => (acc, [])

/-- The raw setPlaylist setter exposed in the context value (line 409):
replaces the queue wholesale and touches nothing else. -/
def setPlaylistOp (tracks : List Track) (s : MusicState) : MusicState :=
  { s with playlist := tracks }

/-- The queue-cursor invariant stated by the spec: the cursor is -1 or a
valid index into the queue. -/
def cursorInvariant (s : MusicState) : Prop :=
  s.currentTrackIndex = -1 ∨
    (0 ≤ s.currentTrackIndex ∧ s.currentTrackIndex < (s.playlist.length : Int))

instance (s : MusicState) : Decidable (cursorInvariant s) := by
  unfold cursorInvariant; infer_instance

/-- One alternative of a JS regex match at a fixed position: the literal
prefix `pat` followed by a non-empty capture of characters outside
`stop` (the class complement with a + quantifier). -/
def capHere (pat stop l : List Char) : Option (List Char) :=
  if pat.isPrefixOf l then
    let cap := (l.drop pat.length).takeWhile (fun c => !stop.contains c)
    if cap.isEmpty then none else some cap
  else none

/-- Leftmost regex match over a string: at each position try the
alternative literal prefixes, then advance one character. -/
def jsMatchCapture (pats : List (List Char)) (stop : List Char) : List Char → Option (List Char)
  | [] => none
  | c :: rest =>
    match pats.findSome? (fun p => capHere p stop (c :: rest)) with
    | some cap => some cap
    | none => jsMatchCapture pats stop rest

/-- Pattern "?v=" (one alternative of the char class [?&] before v=). -/
def PAT_QV : List Char := "?v=".toList

/-- Pattern "&v=" (the other alternative). -/
def PAT_AV : List Char := "&v=".toList

/-- Pattern "youtu.be/". -/
def PAT_YTBE : List Char := "youtu.be/".toList

/-- Pattern "embed/". -/
def PAT_EMBED : List Char := "embed/".toList

/-- Model of getYoutubeVideoId (MusicContext.jsx lines 444-468): try
/[?&]v=([^&]+)/, then /youtu\.be\/([^?&]+)/, then /embed\/([^?&]+)/, and
cut the captured id at the first # or ? (.split followed by [0]). -/
def getYoutubeVideoId (url : String) : Option String :=
  if url.isEmpty then none
  else
    let l := url.toList
    let m1 := jsMatchCapture [PAT_QV, PAT_AV] ['&'] l
    let m2 := match m1 with
      | some i => some i
      | none => jsMatchCapture [PAT_YTBE] ['?', '&'] l
    let m3 := match m2 with
      | some i => some i
      | none => jsMatchCapture [PAT_EMBED] ['?', '&'] l
    match m3 with
    | none => none
    | some i => some (String.mk (i.takeWhile (fun c => !(c == '#' || c == '?'))))

/-- The playerKey expression of the provider (line 442):
`currentTrack?._id || currentTrack?.id || currentTrack?.audioSrc`. -/
def playerKeyOf (s : MusicState) : Option String :=
  match s.currentTrack with
  | none => none
  | some ct => jsOrStr ct.track.mid (jsOrStr ct.track.id (some ct.audioSrc))

/-- JS string interpolation of an undefined key. -/
def UNDEFINED_STR : String := "undefined"

/-- Key prefix of the hidden YouTube player element (line 501). -/
def YT_HIDDEN_KEY : String := "youtube-hidden-"

/-- The React key of the hidden YouTube player element. -/
def youtubeHiddenKeyStr (s : MusicState) : String :=
  YT_HIDDEN_KEY ++ ((playerKeyOf s).getD UNDEFINED_STR)

/-- The youtubeVideoId value of the provider (line 470). -/
def youtubeVideoIdOf (s : MusicState) : Option String :=
  match s.currentTrack with
  | none => none
  | some ct => getYoutubeVideoId ct.audioSrc

/-- A mounted embedded-player React element: the hidden audio-mode player
inside MusicProvider (identified by its key) or the keyless player inside
VideoViewer. -/
inductive EmbedMount where
  | hiddenPlayer (key : String)
  | viewerPlayer
deriving DecidableEq

/-- The set of embedded-player elements mounted for a given state:
MusicContext.jsx line 499 mounts the hidden player only for a YouTube
source with the viewer closed and a non-null video id, keyed per track;
VideoViewer (src/unnamed/part_007) mounts its keyless player whenever the
viewer is open. -/
def mountedEmbeds (s : MusicState) : List EmbedMount :=
  (if s.sourceType = some ST_YOUTUBE ∧ s.isVideoViewerOpen = false ∧ (youtubeVideoIdOf s).isSome
    then [EmbedMount.hiddenPlayer (youtubeHiddenKeyStr s)] else []) ++
  (if s.isVideoViewerOpen then [EmbedMount.viewerPlayer] else [])

/-- React reconciliation: an underlying player handle survives a state
change exactly when some mounted element (same position, same key) is
present before and after; otherwise old instances are unmounted (their
cleanup destroys the YT.Player) and new ones boot a fresh instance. -/
def embedSurvives (s s' : MusicState) : Bool :=
  (mountedEmbeds s).any (fun m => decide (m ∈ mountedEmbeds s'))

/-- Sample local track a. -/
def trackA : Track :=
  { mid := some ("a"), id := none, sourceType := some ST_LOCAL, sourceUrl := none,
    filePath := some ("uploads/a.mp3"), cover_photo := none }

/-- Sample local track b. -/
def trackB : Track :=
  { mid := some ("b"), id := none, sourceType := some ST_LOCAL, sourceUrl := none,
    filePath := some ("uploads/b.mp3"), cover_photo := none }

/-- Sample local track c. -/
def trackC : Track :=
  { mid := some ("c"), id := none, sourceType := some ST_LOCAL, sourceUrl := none,
    filePath := some ("uploads/c.mp3"), cover_photo := none }

/-- Sample YouTube track t1. -/
def trackY1 : Track :=
  { mid := some ("t1"), id := none, sourceType := some ST_YOUTUBE,
    sourceUrl := some ("https://www.youtube.com/watch?v=vid111"),
    filePath := none, cover_photo := none }

/-- Sample YouTube track t2. -/
def trackY2 : Track :=
  { mid := some ("t2"), id := none, sourceType := some ST_YOUTUBE,
    sourceUrl := some ("https://www.youtube.com/watch?v=vid222"),
    filePath := none, cover_photo := none }

/-- A track with no usable source reference: no source URL and no file
path. -/
def trackBad : Track :=
  { mid := some ("bad"), id := none, sourceType := none, sourceUrl := none,
    filePath := none, cover_photo := none }

/-- The currentTrack object for trackA once loaded. -/
def ctA : CurrentTrack :=
  { track := trackA, audioSrc := getFullImageUrl ("uploads/a.mp3"), cover_photo_url := none }

/-- The currentTrack object for trackY1 once loaded. -/
def ctY1 : CurrentTrack :=
  { track := trackY1, audioSrc := ("https://www.youtube.com/watch?v=vid111"),
    cover_photo_url := none }

/-- The all-default idle state of the provider (initial useState values). -/
def baseState : MusicState :=
  { currentTrack := none, isPlaying := false, currentTime := 0, duration := 0,
    sourceType := none, volume := mkRat 4 5, isMuted := false, playlist := [],
    currentTrackIndex := -1, isShuffling := false, repeatMode := REPEAT_OFF,
    isVideoViewerOpen := false, nativePlayerAttached := false, nativePlayerTime := 0,
    nativeReadyState := 0, youtubePlayerAttached := false }

/-- A state with the given queue, cursor, shuffle flag and repeat mode,
used to evaluate the pure navigation policy on literal inputs. -/
def policyState (pl : List Track) (cur : Int) (sh : Bool) (rm : String) : MusicState :=
  { baseState with playlist := pl, currentTrackIndex := cur, isShuffling := sh, repeatMode := rm }

/-- The constant-zero random stream (a legitimate value stream of
Math.floor(Math.random()*length) for any non-empty playlist). -/
def rand0 : Nat → Nat := fun _ => 0

/-- A second random stream, constantly 1 (valid for playlists of length
at least 2). -/
def rand1 : Nat → Nat := fun _ => 1

/-- A state playing the YouTube track t1 in hidden (audio-only) mode:
viewer closed, YouTube player object registered. -/
def ytHiddenState : MusicState :=
  { baseState with
    currentTrack := some ctY1
    sourceType := some ST_YOUTUBE
    isPlaying := true
    youtubePlayerAttached := true }

/-- The state right after loadAndPlayTrack switches from t1 to t2 (the
moment from which events of the superseded t1 load are stale). -/
def ytAfterY2 : MusicState :=
  (loadAndPlayTrack ytHiddenState (some trackY2) (-1)).1

/-- A state playing the last (only) queue entry of a repeat-off,
shuffle-off session, about to end. -/
def C2state : MusicState :=
  { baseState with
    currentTrack := some ctA
    isPlaying := true
    currentTime := 55
    duration := 60
    sourceType := some ST_LOCAL
    playlist := [trackA]
    currentTrackIndex := 0
    nativePlayerAttached := true
    nativePlayerTime := 60
    nativeReadyState := 4 }

/-- A repeat-track state whose native track is about to end. -/
def C3state : MusicState :=
  { baseState with
    currentTrack := some ctA
    isPlaying := true
    currentTime := 37
    duration := 100
    sourceType := some ST_LOCAL
    playlist := [trackA]
    currentTrackIndex := 0
    repeatMode := REPEAT_TRACK
    nativePlayerAttached := true
    nativePlayerTime := 100
    nativeReadyState := 4 }

/-- A paused native-playback state with known duration 100, used to
exercise handleSeek. -/
def C6state : MusicState :=
  { baseState with
    currentTrack := some ctA
    currentTime := 10
    duration := 100
    sourceType := some ST_LOCAL
    playlist := [trackA]
    currentTrackIndex := 0
    nativePlayerAttached := true }

/-- A state with a 3-track queue and the cursor on the last track. -/
def C8state : MusicState :=
  { baseState with playlist := [trackA, trackB, trackC], currentTrackIndex := 2 }

/-- Claim C1, counterexample: on a 1-element queue with shuffle on and no
current track (cursor -1, a state the provider exposes), getNextIndex
returns 0, not the current index as the claim requires for length 1; the
random stream used is a valid Math.random value stream for this length. -/
theorem getNextIndex_singleton_shuffle_counterexample :
    getNextIndex (policyState [trackA] (-1) true REPEAT_OFF) rand0 1 = some 0
    ∧ (policyState [trackA] (-1) true REPEAT_OFF).currentTrackIndex = -1
    ∧ (policyState [trackA] (-1) true REPEAT_OFF).playlist.length = 1
    ∧ (policyState [trackA] (-1) true REPEAT_OFF).isShuffling = true
    ∧ (0 : Int) ≠ (policyState [trackA] (-1) true REPEAT_OFF).currentTrackIndex
    ∧ (∀ k, rand0 k < (policyState [trackA] (-1) true REPEAT_OFF).playlist.length) := by
  refine ⟨by decide, by decide, by decide, by decide, by decide, ?_⟩
  intro k
  show 0 < 1
  decide

/-- Claim C2, counterexample: at end of queue with repeat off and shuffle
off the end handler leaves the active track reference set (the state is
not track-free), contradicting the "no active track" part of the claim;
the preconditions of the claim hold at this input. -/
theorem handleAudioEnded_keepsCurrentTrack :
    (handleAudioEnded C2state rand0 1).map (fun p => p.1.currentTrack) = some (some ctA)
    ∧ some ctA ≠ (none : Option CurrentTrack)
    ∧ C2state.repeatMode = REPEAT_OFF
    ∧ C2state.isShuffling = false
    ∧ C2state.currentTrackIndex = (C2state.playlist.length : Int) - 1 := by
  refine ⟨by decide, by decide, by decide, by decide, by decide⟩

/-- Claim C3 (code bug): with repeat mode track and a playing native
track, the end handler resets the position to 0 and issues only seek(0)
(no reload), but is-playing ends FALSE: handleAudioEnded sets it false
and the stale-closure read of isPlaying inside handleSeek (true at the
render that created the callback) skips the re-enable, so the follow-up
native effect pauses the element instead of replaying it. -/
theorem repeatTrack_end_leaves_paused :
    handleAudioEnded C3state rand0 1 =
      some ({ C3state with isPlaying := false, currentTime := 0 }, [PlayerAction.seekTo 0])
    ∧ nativeAudioEffect { C3state with isPlaying := false, currentTime := 0 } =
      [PlayerAction.setVolumeAct (mkRat 4 5), PlayerAction.setMutedAct false, PlayerAction.pause]
    ∧ C3state.repeatMode = REPEAT_TRACK
    ∧ C3state.isPlaying = true := by
  refine ⟨by decide, by decide, by decide, by decide⟩

/-- Claim C4, counterexample: after loadAndPlayTrack switches the active
track from t1 to t2 (both YouTube), the progress callback applies a time
sampled by the superseded t1 player unconditionally — the handlers carry
no generation or track identity, so a stale same-kind event mutates the
unified playback state. -/
theorem staleYoutubeProgress_mutatesState :
    ytAfterY2.currentTrack.map (fun ct => ct.track.mid) = some (some ("t2"))
    ∧ (setYoutubeCurrentTime 42 ytAfterY2).currentTime = 42
    ∧ setYoutubeCurrentTime 42 ytAfterY2 ≠ ytAfterY2 := by
  refine ⟨by decide, by decide, by decide⟩

/-- Claim C5, counterexample: the embedded player handle is not reused:
the hidden player mounted for t1 does not survive the switch to t2 (the
mounted embed elements before and after share no identity, so React
destroys the old YT.Player and boots a new one), and toggling the viewer
visibility afterwards again preserves no mounted embed element. -/
theorem embedHandle_recreated :
    mountedEmbeds ytHiddenState ≠ []
    ∧ embedSurvives ytHiddenState ytAfterY2 = false
    ∧ embedSurvives ytAfterY2 (toggleVideoViewer ytAfterY2).1 = false := by
  refine ⟨by decide, by decide, by decide⟩

/-- Claim C6, counterexample: handleSeek stores the raw target time even
when it exceeds the known duration — no clamping to [0, duration] takes
place (500 is stored against duration 100). -/
theorem handleSeek_noClamp :
    C6state.duration = 100
    ∧ (handleSeek 500 C6state).1.currentTime = 500
    ∧ ¬ (handleSeek 500 C6state).1.currentTime ≤ C6state.duration := by
  refine ⟨by decide, by decide, by decide⟩

/-- Claim C8, counterexample: the provider exposes the raw setPlaylist
setter; replacing a 3-track queue (cursor 2) by a 1-track queue neither
resets nor re-validates the cursor, leaving it out of bounds — the
cursor-validity invariant is not preserved by every operation. -/
theorem setPlaylist_breaks_cursorInvariant :
    cursorInvariant C8state ∧ ¬ cursorInvariant (setPlaylistOp [trackA] C8state) := by
  refine ⟨by decide, by decide⟩

/-- Claim C7: a track whose populated source reference cannot produce a
usable playable URL makes loadAndPlayTrack refuse playback: it logs a
non-fatal error, clears the active track, forces is-playing false, and
changes nothing else — no adapter activity follows. -/
theorem loadAndPlayTrack_unresolvable (s : MusicState) (t : Track) (idx : Int)
    (h : resolveTrackUrl t = none) :
    loadAndPlayTrack s (some t) idx =
      ({ s with currentTrack := none, isPlaying := false }, [PlayerAction.consoleError]) := by
  unfold loadAndPlayTrack
  simp [h]

/-- Witness for claim C7 at a concrete unresolvable track (no source URL
and no file path). -/
theorem loadAndPlayTrack_unresolvable_witness :
    loadAndPlayTrack baseState (some trackBad) (-1) =
      ({ baseState with currentTrack := none, isPlaying := false }, [PlayerAction.consoleError]) :=
  loadAndPlayTrack_unresolvable baseState trackBad (-1) (by decide)

/-- Claim C10: setAudioVolume stores the new volume; a strictly positive
volume clears the muted flag, while volume 0 leaves the muted flag
unchanged. -/
theorem setAudioVolume_policy (s : MusicState) (v : ℚ) :
    ((setAudioVolume v s).volume = v)
    ∧ (0 < v → (setAudioVolume v s).isMuted = false)
    ∧ (v = 0 → (setAudioVolume v s).isMuted = s.isMuted) := by
  unfold setAudioVolume
  by_cases h : 0 < v
  · refine ⟨by simp [h], fun _ => by simp [h], fun h0 => ?_⟩
    rw [h0] at h
    exact absurd h (by norm_num)
  · refine ⟨by simp [h], fun hv => absurd hv h, fun _ => by simp [h]⟩

/-- Witness for claim C10 at volume one half over the initial state. -/
theorem setAudioVolume_policy_witness :
    (setAudioVolume (mkRat 1 2) baseState).volume = mkRat 1 2
    ∧ (setAudioVolume (mkRat 1 2) baseState).isMuted = false :=
  ⟨(setAudioVolume_policy baseState (mkRat 1 2)).1,
   (setAudioVolume_policy baseState (mkRat 1 2)).2.1 (by decide)⟩

/-- Helper: with at most one queue element the do-while exits after the
first draw. -/
theorem shuffleDraw_short (rand : Nat → Nat) (len : Nat) (cur : Int) (hlen : ¬ 1 < len)
    (fuel idx : Nat) :
    shuffleDraw rand len cur (fuel + 1) idx = some (rand idx) := by
  simp [shuffleDraw, hlen]

/-- Helper: with more than one queue element and a draw different from the
cursor available within fuel, the do-while returns an in-range draw
different from the cursor. -/
theorem shuffleDraw_ne (rand : Nat → Nat) (len : Nat) (cur : Int) (hlen : 1 < len)
    (hrand : ∀ k, rand k < len) :
    ∀ fuel idx, (∃ j, j < fuel ∧ (rand (idx + j) : Int) ≠ cur) →
      ∃ n, shuffleDraw rand len cur fuel idx = some n ∧ n < len ∧ (n : Int) ≠ cur := by
  intro fuel
  induction fuel with
  | zero =>
    rintro idx ⟨j, hj, -⟩
    omega
  | succ f ih =>
    rintro idx ⟨j, hj, hne⟩
    by_cases h : (rand idx : Int) = cur
    · have hstep : shuffleDraw rand len cur (f + 1) idx = shuffleDraw rand len cur f (idx + 1) := by
        simp [shuffleDraw, h, hlen]
      rw [hstep]
      apply ih (idx + 1)
      cases j with
      | zero => exact absurd h (by simpa using hne)
      | succ j =>
        refine ⟨j, by omega, ?_⟩
        have harith : idx + 1 + j = idx + (j + 1) := by omega
        rw [harith]
        exact hne
    · refine ⟨rand idx, ?_, hrand idx, h⟩
      simp [shuffleDraw, h]

/-- Claim C1 (amended): on an empty queue getNextIndex yields -1
regardless of repeat mode and shuffle flag; with a valid current index
(and, for the shuffle branch, a valid random value stream and enough
fuel) the three policy rules hold exactly: repeat-track returns the
current index unchanged; shuffle returns an in-range index different
from the current one when the queue has more than one element and equal
to it on a singleton queue; otherwise the linear rule applies (current
index plus one when within bounds, else 0 for repeat-context, else -1).
The four literal cases of the claim hold as stated. -/
theorem getNextIndex_policy (s : MusicState) (rand : Nat → Nat) (fuel : Nat) :
    (s.playlist.length = 0 → getNextIndex s rand fuel = some (-1))
    ∧ (0 ≤ s.currentTrackIndex → s.currentTrackIndex < (s.playlist.length : Int) →
        s.repeatMode = REPEAT_TRACK → getNextIndex s rand fuel = some s.currentTrackIndex)
    ∧ (0 ≤ s.currentTrackIndex → s.currentTrackIndex < (s.playlist.length : Int) →
        (∀ k, rand k < s.playlist.length) → 0 < fuel →
        (1 < s.playlist.length → ∃ j, j < fuel ∧ (rand j : Int) ≠ s.currentTrackIndex) →
        s.repeatMode ≠ REPEAT_TRACK → s.isShuffling = true →
        ∃ n : Nat, getNextIndex s rand fuel = some (n : Int) ∧ n < s.playlist.length
          ∧ (1 < s.playlist.length → (n : Int) ≠ s.currentTrackIndex)
          ∧ (s.playlist.length = 1 → (n : Int) = s.currentTrackIndex))
    ∧ (0 ≤ s.currentTrackIndex → s.currentTrackIndex < (s.playlist.length : Int) →
        s.repeatMode ≠ REPEAT_TRACK → s.isShuffling = false →
        getNextIndex s rand fuel =
          some (if s.currentTrackIndex + 1 < (s.playlist.length : Int) then s.currentTrackIndex + 1
                else if s.repeatMode = REPEAT_CONTEXT then 0 else -1))
    ∧ getNextIndex (policyState [trackA, trackB, trackC] 2 false REPEAT_OFF) rand0 1 = some (-1)
    ∧ getNextIndex (policyState [trackA, trackB, trackC] 2 false REPEAT_CONTEXT) rand0 1 = some 0
    ∧ getNextIndex (policyState [trackA, trackB, trackC] 1 false REPEAT_OFF) rand0 1 = some 2
    ∧ getNextIndex (policyState [trackA] 0 true REPEAT_OFF) rand0 1 = some 0 := by
  refine ⟨?_, ?_, ?_, ?_, by decide, by decide, by decide, by decide⟩
  · intro h0
    simp [getNextIndex, h0]
  · intro hcur0 hcurlen hrm
    have hpos : 0 < s.playlist.length := by omega
    simp [getNextIndex, hrm, Nat.pos_iff_ne_zero.mp hpos]
  · intro hcur0 hcurlen hrand hfuel hterm hrm hsh
    have hpos : 0 < s.playlist.length := by omega
    by_cases hlen : 1 < s.playlist.length
    · obtain ⟨j, hj, hne⟩ := hterm hlen
      obtain ⟨n, hdraw, hlt, hneq⟩ :=
        shuffleDraw_ne rand s.playlist.length s.currentTrackIndex hlen hrand fuel 0
          ⟨j, hj, by simpa using hne⟩
      refine ⟨n, ?_, hlt, fun _ => hneq, fun h1 => absurd h1 (by omega)⟩
      simp [getNextIndex, hrm, hsh, Nat.pos_iff_ne_zero.mp hpos, hdraw]
    · have hlen1 : s.playlist.length = 1 := by omega
      obtain ⟨f, rfl⟩ : ∃ f, fuel = f + 1 := ⟨fuel - 1, by omega⟩
      have hdraw := shuffleDraw_short rand s.playlist.length s.currentTrackIndex hlen f 0
      have hr0 : rand 0 = 0 := by
        have := hrand 0
        omega
      have hcur : s.currentTrackIndex = 0 := by omega
      refine ⟨rand 0, ?_, by omega, fun h => absurd h hlen, fun _ => by rw [hr0, hcur]; rfl⟩
      simp [getNextIndex, hrm, hsh, Nat.pos_iff_ne_zero.mp hpos, hdraw]
  · intro hcur0 hcurlen hrm hsh
    have hpos : 0 < s.playlist.length := by omega
    by_cases hb : s.currentTrackIndex + 1 < (s.playlist.length : Int)
    · have hnb : ¬ ((s.playlist.length : Int) ≤ s.currentTrackIndex + 1) := by omega
      simp [getNextIndex, hrm, hsh, Nat.pos_iff_ne_zero.mp hpos, hb, hnb]
    · have hnb : (s.playlist.length : Int) ≤ s.currentTrackIndex + 1 := by omega
      simp [getNextIndex, hrm, hsh, Nat.pos_iff_ne_zero.mp hpos, hb, hnb]

/-- Witness for claim C1: the linear rule evaluated through the policy
theorem on a concrete 2-track queue at index 0 with repeat off. -/
theorem getNextIndex_policy_witness :
    getNextIndex (policyState [trackA, trackB] 0 false REPEAT_OFF) rand1 1 =
      some (if (0 : Int) + 1 < ((policyState [trackA, trackB] 0 false REPEAT_OFF).playlist.length : Int)
            then (0 : Int) + 1
            else if (policyState [trackA, trackB] 0 false REPEAT_OFF).repeatMode = REPEAT_CONTEXT
            then 0 else -1) := by
  have h := getNextIndex_policy (policyState [trackA, trackB] 0 false REPEAT_OFF) rand1 1
  exact h.2.2.2.1 (by decide) (by decide) (by decide) (by decide)

/-- Claim C2 (amended): with a non-empty queue, repeat off, shuffle off
and the cursor on the last index, the end handler produces exactly the
state with is-playing false, position 0 and cursor -1 and issues no
player command; every other field — in particular the active track
reference, which is NOT cleared — is unchanged. -/
theorem handleAudioEnded_endOfQueue (s : MusicState) (rand : Nat → Nat) (fuel : Nat)
    (hne : s.playlist ≠ [])
    (hrm : s.repeatMode = REPEAT_OFF)
    (hsh : s.isShuffling = false)
    (hlast : s.currentTrackIndex = (s.playlist.length : Int) - 1) :
    handleAudioEnded s rand fuel =
      some ({ s with isPlaying := false, currentTime := 0, currentTrackIndex := -1 }, []) := by
  have hpos : 0 < s.playlist.length := List.length_pos.mpr hne
  have hlen0 : s.playlist.length ≠ 0 := by omega
  have hgni : getNextIndex s rand fuel = some (-1) := by
    have hle : (s.playlist.length : Int) ≤ s.currentTrackIndex + 1 := by omega
    have hot : (REPEAT_OFF = REPEAT_TRACK) = False := by decide
    have hoc : (REPEAT_OFF = REPEAT_CONTEXT) = False := by decide
    simp [getNextIndex, hrm, hsh, hlen0, hle, hot, hoc]
  have hcne : ((-1 : Int) = s.currentTrackIndex) = False := by
    simp only [eq_iff_iff, iff_false]
    omega
  unfold handleAudioEnded playNextStableFrom
  rw [hgni]
  have hot : (REPEAT_OFF = REPEAT_TRACK) = False := by decide
  simp [hrm, hcne, hot]

/-- Witness for claim C2: the end of the single queued track of C2state. -/
theorem handleAudioEnded_endOfQueue_witness :
    handleAudioEnded C2state rand0 1 =
      some ({ C2state with isPlaying := false, currentTime := 0, currentTrackIndex := -1 }, []) :=
  handleAudioEnded_endOfQueue C2state rand0 1 (by decide) (by decide) (by decide) (by decide)

/-- Claim C4 (amended): the orchestrator filters adapter events only by
source kind (and the playing flag for native progress), not by any
generation or track identity: a YouTube time or duration callback is
dropped exactly when the current sourceType is not youtube; the native
progress callback is dropped when the sourceType is youtube or playback
is not running, and when applied it reads the currently attached element
rather than any event payload.  Same-kind stale events are not
discarded. -/
theorem staleEvent_kindFilter (s : MusicState) (t d : ℚ) :
    (s.sourceType ≠ some ST_YOUTUBE → setYoutubeCurrentTime t s = s ∧ setYoutubeDuration d s = s)
    ∧ (s.sourceType = some ST_YOUTUBE → handleNativeProgress s = s)
    ∧ (s.isPlaying = false → handleNativeProgress s = s)
    ∧ (handleNativeProgress s = s ∨ (handleNativeProgress s).currentTime = s.nativePlayerTime) := by
  have hyl : (ST_YOUTUBE = ST_LOCAL) = False := by decide
  have hye : (ST_YOUTUBE = ST_EXTERNAL_URL) = False := by decide
  refine ⟨?_, ?_, ?_, ?_⟩
  · intro h
    constructor <;> simp [setYoutubeCurrentTime, setYoutubeDuration, h]
  · intro h
    simp [handleNativeProgress, h, hyl, hye]
  · intro h
    simp [handleNativeProgress, h]
  · unfold handleNativeProgress
    by_cases h1 : s.isPlaying = true ∧ (s.sourceType = some ST_LOCAL ∨ s.sourceType = some ST_EXTERNAL_URL)
    · by_cases h2 : s.nativePlayerAttached
      · right
        simp [h1, h2]
      · left
        simp [h1, h2]
    · left
      simp [h1]

/-- Witness for claim C4: a native-source state drops a YouTube time
callback unchanged. -/
theorem staleEvent_kindFilter_witness :
    setYoutubeCurrentTime 42 C6state = C6state :=
  ((staleEvent_kindFilter C6state 42 0).1 (by decide)).1

/-- Claim C5 (amended): the keyless viewer player element persists across
any state change that keeps the viewer open (content swaps into the same
handle), but the hidden player is keyed per track and mounted only while
the viewer is closed: no mounted embed element ever survives a viewer
visibility toggle, and none survives a track-key change while hidden —
in those cases the embedded handle is destroyed and recreated; the
toggle re-seeks the current position exactly on the visible-to-hidden
transition with a registered player object. -/
theorem embedMount_policy (s s2 : MusicState) :
    (s.isVideoViewerOpen = true → s2.isVideoViewerOpen = true → embedSurvives s s2 = true)
    ∧ (embedSurvives s (toggleVideoViewer s).1 = false)
    ∧ ((toggleVideoViewer s).2 =
        if s.isVideoViewerOpen ∧ s.youtubePlayerAttached then [PlayerAction.seekTo s.currentTime]
        else [])
    ∧ (s.isVideoViewerOpen = false → s2.isVideoViewerOpen = false →
        youtubeHiddenKeyStr s ≠ youtubeHiddenKeyStr s2 → embedSurvives s s2 = false) := by
  refine ⟨?_, ?_, ?_, ?_⟩
  · intro h1 h2
    simp [embedSurvives, mountedEmbeds, h1, h2]
  · cases hv : s.isVideoViewerOpen
    · simp only [embedSurvives, mountedEmbeds, toggleVideoViewer, hv]
      split
      · simp
      · simp
    · simp only [embedSurvives, mountedEmbeds, toggleVideoViewer, hv]
      simp
  · cases hv : s.isVideoViewerOpen <;> simp [toggleVideoViewer, hv]
  · intro h1 h2 hk
    by_cases c1 : s.sourceType = some ST_YOUTUBE ∧ s.isVideoViewerOpen = false
        ∧ (youtubeVideoIdOf s).isSome = true
    · by_cases c2 : s2.sourceType = some ST_YOUTUBE ∧ s2.isVideoViewerOpen = false
          ∧ (youtubeVideoIdOf s2).isSome = true
      · simp [embedSurvives, mountedEmbeds, c1, c2, h1, h2, hk]
      · simp [embedSurvives, mountedEmbeds, c1, c2, h1, h2]
        exact fun _ _ => hk
    · simp [embedSurvives, mountedEmbeds, c1, h1, h2]
      intro x hs1 hs2 hx hy1 hy2
      subst hx
      simp [hk]

/-- Witness for claim C5: with the viewer open the viewer player element
survives (trivially, across the identity change). -/
theorem embedMount_policy_witness :
    embedSurvives ytAfterY2 ytAfterY2 = true :=
  (embedMount_policy ytAfterY2 ytAfterY2).1 (by decide) (by decide)

/-- Claim C6 (amended): with an active attached player, handleSeek issues
the seek to the adapter and stores the RAW target time as the current
position — there is no clamping to [0, duration] — and sets is-playing
true. -/
theorem handleSeek_policy (s : MusicState) (t : ℚ)
    (hatt : (if s.sourceType = some ST_YOUTUBE then s.youtubePlayerAttached
             else s.nativePlayerAttached) = true) :
    handleSeek t s = ({ s with currentTime := t, isPlaying := true }, [PlayerAction.seekTo t]) := by
  obtain ⟨ct, ip, ctime, dur, st, vol, mu, pl, idx, sh, rm, vv, npa, npt, nrs, ypa⟩ := s
  cases ip <;> simp_all [handleSeek, handleSeekFrom]

/-- Witness for claim C6: a concrete in-range seek over C6state. -/
theorem handleSeek_policy_witness :
    handleSeek 7 C6state = ({ C6state with currentTime := 7, isPlaying := true },
      [PlayerAction.seekTo 7]) :=
  handleSeek_policy C6state 7 (by decide)

/-- Claim C8 (amended): the cursor-validity invariant is not preserved by
every exposed operation (raw setPlaylist breaks it), but playNewQueue
re-establishes it: replacing the queue by an empty one resets the cursor
to -1, and replacing it with a start track that exists and resolves sets
the cursor to the (valid) start index. -/
theorem playNewQueue_cursor (s : MusicState) (tracks : List Track) (i : Nat) :
    (tracks = [] →
      (playNewQueue s tracks i).1.currentTrackIndex = -1
      ∧ (playNewQueue s tracks i).1.playlist = []
      ∧ cursorInvariant (playNewQueue s tracks i).1)
    ∧ (∀ t, tracks[i]? = some t → resolveTrackUrl t ≠ none →
      (playNewQueue s tracks i).1.currentTrackIndex = (i : Int)
      ∧ (playNewQueue s tracks i).1.playlist = tracks
      ∧ cursorInvariant (playNewQueue s tracks i).1) := by
  constructor
  · rintro rfl
    refine ⟨by simp [playNewQueue], by simp [playNewQueue], ?_⟩
    simp [playNewQueue, cursorInvariant]
  · intro t hget hres
    have hlen : i < tracks.length := by
      by_contra hc
      push_neg at hc
      rw [List.getElem?_eq_none hc] at hget
      cases hget
    have hlen0 : ¬ (tracks.length = 0) := by omega
    obtain ⟨u, hu⟩ := Option.ne_none_iff_exists'.mp hres
    have hi : ((i : Int) ≠ -1) := by omega
    refine ⟨?_, ?_, ?_⟩
    · simp [playNewQueue, loadAndPlayTrack, hlen0, hget, hu, hi]
    · simp [playNewQueue, loadAndPlayTrack, hlen0, hget, hu, hi]
    · simp [playNewQueue, loadAndPlayTrack, hlen0, hget, hu, hi, cursorInvariant]
      omega

/-- Witness for claim C8: playing the 2-track queue from index 1 resets
the cursor to 1 and restores the invariant. -/
theorem playNewQueue_cursor_witness :
    (playNewQueue baseState [trackA, trackB] 1).1.currentTrackIndex = (1 : Int)
    ∧ (playNewQueue baseState [trackA, trackB] 1).1.playlist = [trackA, trackB]
    ∧ cursorInvariant (playNewQueue baseState [trackA, trackB] 1).1 :=
  (playNewQueue_cursor baseState [trackA, trackB] 1).2 trackB (by decide) (by decide)

/-- Claim C9: for a non-empty queue with a valid current index, the
previous-track policy yields the current index minus one when that is
non-negative (loading that queue entry); at index 0 it wraps to the last
index when repeat is not off (loading it when the queue has more than
one element, and staying put on a singleton queue since the wrap target
is the current index); at index 0 with repeat off it clamps to 0 and no
track change is issued. -/
theorem playPreviousStable_policy (s : MusicState)
    (h0 : 0 ≤ s.currentTrackIndex)
    (hlt : s.currentTrackIndex < (s.playlist.length : Int)) :
    (0 ≤ s.currentTrackIndex - 1 →
      playPreviousStable s =
        (s, [PlayerAction.loadTrack (listGetInt s.playlist (s.currentTrackIndex - 1))]))
    ∧ (s.currentTrackIndex = 0 → s.repeatMode ≠ REPEAT_OFF → 1 < s.playlist.length →
      playPreviousStable s =
        (s, [PlayerAction.loadTrack (listGetInt s.playlist ((s.playlist.length : Int) - 1))]))
    ∧ (s.currentTrackIndex = 0 → s.repeatMode ≠ REPEAT_OFF → s.playlist.length = 1 →
      playPreviousStable s = (s, []))
    ∧ (s.currentTrackIndex = 0 → s.repeatMode = REPEAT_OFF →
      playPreviousStable s = (s, [])) := by
  have hA : ¬ s.playlist = [] := by
    intro h
    rw [h] at hlt
    simp at hlt
    omega
  have hB : ¬ s.currentTrackIndex = -1 := by omega
  refine ⟨?_, ?_, ?_, ?_⟩
  · intro h1
    have hlt0 : ¬ (s.currentTrackIndex - 1 < 0) := by omega
    have hne2 : s.currentTrackIndex - 1 ≠ s.currentTrackIndex := by omega
    simp [playPreviousStable, hA, hB, hlt0, hne2]
  · intro hcur hrm hlen
    have hlt0 : s.currentTrackIndex - 1 < 0 := by omega
    have hne2 : (s.playlist.length : Int) - 1 ≠ s.currentTrackIndex := by omega
    simp [playPreviousStable, hA, hB, hlt0, hrm, hne2]
  · intro hcur hrm hlen
    have hlt0 : s.currentTrackIndex - 1 < 0 := by omega
    have heq : (s.playlist.length : Int) - 1 = s.currentTrackIndex := by omega
    simp [playPreviousStable, hA, hB, hlt0, hrm, heq]
  · intro hcur hrm
    have hlt0 : s.currentTrackIndex - 1 < 0 := by omega
    simp [playPreviousStable, hA, hB, hlt0, hrm, hcur]

/-- Witness for claim C9: from index 2 of a 3-track queue the policy
loads the entry at index 1. -/
theorem playPreviousStable_policy_witness :
    playPreviousStable (policyState [trackA, trackB, trackC] 2 false REPEAT_OFF) =
      (policyState [trackA, trackB, trackC] 2 false REPEAT_OFF,
        [PlayerAction.loadTrack
          (listGetInt (policyState [trackA, trackB, trackC] 2 false REPEAT_OFF).playlist
            ((policyState [trackA, trackB, trackC] 2 false REPEAT_OFF).currentTrackIndex - 1))]) :=
  (playPreviousStable_policy (policyState [trackA, trackB, trackC] 2 false REPEAT_OFF)
    (by decide) (by decide)).1 (by decide)
